import Mathlib

/-!
Shallow embedding of the social-media dashboard backend
(`src/backend/src/routes/facebookRoutes.js`, `instagramRoutes.js`,
`src/unnamed/part_001` = twitterRoutes.js, schema `src/backend/database.sql`).

The relational tables are embedded as lists of row structures; each route
handler's database logic becomes a pure function from the relevant table
states (and the outcome of the outbound provider call, passed as an
`Except` parameter) to a response plus updated table states.  Timestamps
are naturals (`NOW()` / `CURRENT_TIMESTAMP` is threaded as a `now`
parameter), dates and provider ids are strings, and SQL `NULL` is
`Option`.  JavaScript truthiness checks (`!x`, `x || d`) are modelled
explicitly where they appear in the source.
-/

namespace SocialDash

/-- HTTP response: status code plus the JSON message/error string. -/
structure Resp where
  status : Nat
  body : String
  deriving DecidableEq, Repr

/-- Row of `facebook_pages` (database.sql lines 40-51). -/
structure PageRow where
  user_id : Nat
  page_id : String
  page_name : String
  page_access_token : String
  profile_picture_url : Option String
  followers_count : Int
  is_selected : Bool
  created_at : Nat
  deriving DecidableEq, Repr

/-- A page record as returned by the Facebook Graph API
(`/me/accounts`, fields `id,name,picture,followers_count` plus the
page `access_token`). `picture_url` models `page.picture?.data?.url`
and `followers_count` is optional to model `page.followers_count || 0`. -/
structure FBPage where
  id : String
  name : String
  access_token : String
  picture_url : Option String
  followers_count : Option Int
  deriving DecidableEq, Repr

/-- JavaScript `x || 0` on an optional numeric field. -/
def jsIntOr0 : Option Int → Int
  | some n => n
  | none => 0

/-- JavaScript `x || null` on an optional string field (`""` is falsy). -/
def jsStrOrNull : Option String → Option String
  | some s => if s = "" then none else some s
  | none => none

/-- The `ON CONFLICT (user_id, page_id)` key predicate. -/
def pageKey (uid : Nat) (pid : String) (r : PageRow) : Bool :=
  decide (r.user_id = uid ∧ r.page_id = pid)

/-- The `DO UPDATE SET page_name = $3, page_access_token = $4,
followers_count = $6` clause of the pages upsert
(facebookRoutes.js lines 57-70). -/
def pageUpdate (p : FBPage) (r : PageRow) : PageRow :=
  { r with page_name := p.name, page_access_token := p.access_token,
           followers_count := jsIntOr0 p.followers_count }

/-- The freshly inserted row of the pages upsert: `is_selected` takes its
schema default `FALSE`, `created_at` the current timestamp. -/
def pageInsert (now : Nat) (uid : Nat) (p : FBPage) : PageRow :=
  { user_id := uid, page_id := p.id, page_name := p.name,
    page_access_token := p.access_token,
    profile_picture_url := jsStrOrNull p.picture_url,
    followers_count := jsIntOr0 p.followers_count,
    is_selected := false, created_at := now }

/-- One iteration of the `GET /pages` store loop
(facebookRoutes.js lines 56-71): `INSERT ... ON CONFLICT (user_id,
page_id) DO UPDATE SET page_name, page_access_token, followers_count`. -/
def upsertFacebookPage (now : Nat) (uid : Nat) (t : List PageRow) (p : FBPage) :
    List PageRow :=
  if t.any (pageKey uid p.id) then
    t.map fun r => if pageKey uid p.id r then pageUpdate p r else r
  else
    t ++ [pageInsert now uid p]

/-- The whole `GET /pages` store loop over a fetched page list. -/
def syncFacebookPages (now : Nat) (uid : Nat) (t : List PageRow)
    (ps : List FBPage) : List PageRow :=
  ps.foldl (upsertFacebookPage now uid) t

/-- `SELECT` of the row with a given `(user_id, page_id)` key (the unique
constraint of `facebook_pages` identifies rows by this key). -/
def findFacebookPage (uid : Nat) (pid : String) (t : List PageRow) :
    Option PageRow :=
  t.find? (pageKey uid pid)

/-- Write the `is_selected` column of one row. -/
def setSelected (b : Bool) (r : PageRow) : PageRow :=
  { r with is_selected := b }

/-- Per-row effect of `UPDATE facebook_pages SET is_selected = FALSE
WHERE user_id = $1`. -/
def deselectIfOwner (uid : Nat) (r : PageRow) : PageRow :=
  if r.user_id = uid then setSelected false r else r

/-- `UPDATE facebook_pages SET is_selected = FALSE WHERE user_id = $1`
(facebookRoutes.js lines 97-100). -/
def facebookDeselectAll (uid : Nat) (t : List PageRow) : List PageRow :=
  t.map (deselectIfOwner uid)

/-- Per-row effect of `UPDATE facebook_pages SET is_selected = TRUE
WHERE user_id = $1 AND page_id = $2`. -/
def selectIfKey (uid : Nat) (pid : String) (r : PageRow) : PageRow :=
  if pageKey uid pid r then setSelected true r else r

/-- Result of the `POST /pages/select` handler: response, the
`RETURNING *` row (if any), and the table afterwards. -/
structure SelectOut where
  resp : Resp
  page : Option PageRow
  table : List PageRow
  deriving Repr

/-- `POST /pages/select` (facebookRoutes.js lines 88-118): reject a falsy
`pageId`, deselect all of the caller's rows, then set `is_selected` on
the `(user_id, pageId)` row, returning 404 when no row was updated.
Note the deselect statement runs before the existence check, so on 404
the table is the deselected one. -/
def facebookSelectPage (uid : Nat) (pageId : Option String)
    (t : List PageRow) : SelectOut :=
  match pageId with
  | none => ⟨⟨400, "Page ID required"⟩, none, t⟩
  | some pid =>
    if pid = "" then ⟨⟨400, "Page ID required"⟩, none, t⟩
    else
      let t1 := facebookDeselectAll uid t
      match (t1.filter (pageKey uid pid)).head? with
      | none => ⟨⟨404, "Page not found"⟩, none, t1⟩
      | some r =>
        ⟨⟨200, "Page selected"⟩, some (setSelected true r),
          t1.map (selectIfKey uid pid)⟩

/-- The `user_id = $1 AND is_selected = TRUE` predicate of the
selected-row queries. -/
def ownerSel (uid : Nat) (r : PageRow) : Bool :=
  decide (r.user_id = uid ∧ r.is_selected = true)

/-- `GET /pages/selected` (facebookRoutes.js lines 121-138):
`SELECT * WHERE user_id = $1 AND is_selected = TRUE LIMIT 1`. -/
def facebookGetSelected (uid : Nat) (t : List PageRow) : Option PageRow :=
  (t.filter (ownerSel uid)).head?

/-- Row of `scheduled_posts` (database.sql lines 54-65). -/
structure ScheduledPost where
  id : Nat
  user_id : Nat
  page_id : Option String
  content : String
  scheduled_time : Nat
  status : String
  media_url : Option String
  facebook_post_id : Option String
  published_at : Option Nat
  created_at : Nat
  deriving DecidableEq, Repr

/-- Result of a publish-style handler: response, the `scheduled_posts`
table afterwards, and whether the outbound provider call was reached. -/
structure PublishOut where
  resp : Resp
  posts : List ScheduledPost
  providerCalled : Bool
  deriving Repr

/-- The `UPDATE scheduled_posts SET status = 'published',
facebook_post_id = $2, published_at = NOW() WHERE id = $3` statement
shared by all three publish paths (note: it matches on `id` alone). -/
def markPublished (now : Nat) (postId : Nat) (remoteId : String)
    (posts : List ScheduledPost) : List ScheduledPost :=
  posts.map fun p =>
    if p.id = postId then
      { p with status := "published", facebook_post_id := some remoteId,
               published_at := some now }
    else p

/-- The page lookup of `POST /publish` (facebookRoutes.js lines 304-307):
`SELECT * FROM facebook_pages WHERE page_id = $1` — by `page_id` alone,
across all users; a SQL `NULL` `page_id` matches no row. -/
def pageByPageId (pages : List PageRow) : Option String → Option PageRow
  | none => none
  | some pid => (pages.filter fun r => decide (r.page_id = pid)).head?

/-- The `WHERE id = $1 AND user_id = $2` predicate of the scheduled-post
lookup (facebookRoutes.js lines 294-297). -/
def postOwnerKey (uid postId : Nat) (p : ScheduledPost) : Bool :=
  decide (p.id = postId ∧ p.user_id = uid)

/-- `POST /publish` (facebookRoutes.js lines 290-339): load the scheduled
post by `(id, user_id)` (404 when absent), look up the page by `page_id`
alone (across all users; 400 when absent), call the Graph API feed
endpoint (its outcome is the `provider` parameter), and on success mark
the post published.  No check of the loaded post's `status` occurs. -/
def facebookPublish (uid : Nat) (postId : Nat) (pages : List PageRow)
    (posts : List ScheduledPost) (provider : Except String String)
    (now : Nat) : PublishOut :=
  match posts.find? (postOwnerKey uid postId) with
  | none => ⟨⟨404, "Post not found"⟩, posts, false⟩
  | some post =>
    match pageByPageId pages post.page_id with
    | none => ⟨⟨400, "Page not found"⟩, posts, false⟩
    | some _ =>
      match provider with
      | .error _ => ⟨⟨500, "Failed to publish post"⟩, posts, true⟩
      | .ok fid =>
        ⟨⟨200, "Post published successfully"⟩, markPublished now postId fid posts, true⟩

/-- Row of `facebook_insights` (database.sql lines 68-77); the FLOAT
metric value is embedded as an integer (all stored metrics are counts). -/
structure InsightRow where
  user_id : Nat
  page_id : String
  metric_name : String
  metric_value : Int
  insight_date : String
  created_at : Nat
  deriving DecidableEq, Repr

/-- The `UNIQUE (page_id, metric_name, insight_date)` key predicate. -/
def insightKey (pid metric date : String) (r : InsightRow) : Bool :=
  decide (r.page_id = pid ∧ r.metric_name = metric ∧ r.insight_date = date)

/-- One iteration of the `GET /insights` store loop (facebookRoutes.js
lines 238-253): `INSERT ... ON CONFLICT (page_id, metric_name,
insight_date) DO NOTHING`. -/
def insertFacebookInsight (now : Nat) (uid : Nat) (pid metric : String)
    (value : Int) (date : String) (t : List InsightRow) : List InsightRow :=
  if t.any (insightKey pid metric date) then t
  else t ++ [⟨uid, pid, metric, value, date, now⟩]

/-- Row of `instagram_media` (database.sql lines 95-108). -/
structure MediaRow where
  user_id : Nat
  instagram_id : String
  media_id : String
  caption : Option String
  media_type : String
  media_url : Option String
  likes_count : Int
  comments_count : Int
  created_time : String
  fetched_at : Nat
  deriving DecidableEq, Repr

/-- A media record as returned by the Instagram Graph API (fields
`id,caption,media_type,media_url,timestamp,like_count,comments_count`). -/
structure IGMedia where
  id : String
  caption : Option String
  media_type : String
  media_url : Option String
  like_count : Option Int
  comments_count : Option Int
  timestamp : Option String
  deriving DecidableEq, Repr

/-- The `ON CONFLICT (instagram_id, media_id)` key predicate. -/
def mediaKey (igId mid : String) (r : MediaRow) : Bool :=
  decide (r.instagram_id = igId ∧ r.media_id = mid)

/-- The `DO UPDATE SET caption = $4, likes_count = $7,
comments_count = $8` clause of the media upsert. -/
def mediaUpdate (m : IGMedia) (r : MediaRow) : MediaRow :=
  { r with caption := jsStrOrNull m.caption,
           likes_count := jsIntOr0 m.like_count,
           comments_count := jsIntOr0 m.comments_count }

/-- One iteration of the `GET /media` store loop (instagramRoutes.js
lines 196-213): `INSERT ... ON CONFLICT (instagram_id, media_id)
DO UPDATE SET caption = $4, likes_count = $7, comments_count = $8`.
`nowIso` models `new Date().toISOString()` for a missing timestamp,
`now` the `fetched_at` schema default. -/
def upsertInstagramMedia (now : Nat) (nowIso : String) (uid : Nat)
    (igId : String) (t : List MediaRow) (m : IGMedia) : List MediaRow :=
  if t.any (mediaKey igId m.id) then
    t.map fun r => if mediaKey igId m.id r then mediaUpdate m r else r
  else
    t ++ [{ user_id := uid, instagram_id := igId, media_id := m.id,
            caption := jsStrOrNull m.caption, media_type := m.media_type,
            media_url := jsStrOrNull m.media_url,
            likes_count := jsIntOr0 m.like_count,
            comments_count := jsIntOr0 m.comments_count,
            created_time := m.timestamp.getD nowIso, fetched_at := now }]

/-- The whole `GET /media` store loop over a fetched media list. -/
def syncInstagramMedia (now : Nat) (nowIso : String) (uid : Nat)
    (igId : String) (t : List MediaRow) (ms : List IGMedia) : List MediaRow :=
  ms.foldl (upsertInstagramMedia now nowIso uid igId) t

/-- `SELECT` of the `instagram_media` row with a given
`(instagram_id, media_id)` key. -/
def findInstagramMedia (igId mid : String) (t : List MediaRow) :
    Option MediaRow :=
  t.find? (mediaKey igId mid)

/-- Row of `instagram_accounts` (database.sql lines 80-92), with the
columns the routes read. -/
structure IGAccountRow where
  user_id : Nat
  instagram_id : String
  username : String
  followers_count : Int
  is_selected : Bool
  access_token : String
  created_at : Nat
  deriving DecidableEq, Repr

/-- `SELECT * FROM instagram_accounts WHERE user_id = $1 AND
is_selected = TRUE LIMIT 1`. -/
def instagramSelected (uid : Nat) (t : List IGAccountRow) : Option IGAccountRow :=
  (t.filter fun a => decide (a.user_id = uid ∧ a.is_selected = true)).head?

/-- Result of the Instagram `POST /publish` handler: its two outbound
calls (media container creation, then `media_publish`) are tracked
separately. -/
structure IGPublishOut where
  resp : Resp
  posts : List ScheduledPost
  containerCalled : Bool
  publishCalled : Bool
  deriving Repr

/-- `POST /publish` (instagramRoutes.js lines 282-337): reject a falsy
`imageUrl`, require a selected account, create the media container and
publish it (outcomes passed as parameters), then — only when `postId`
is truthy — run the `scheduled_posts` update, which matches `id` alone
with no ownership check. -/
def instagramPublish (uid : Nat) (postId : Option Nat)
    (imageUrl : Option String) (accounts : List IGAccountRow)
    (posts : List ScheduledPost) (container : Except String String)
    (publishCall : Except String String) (now : Nat) : IGPublishOut :=
  match imageUrl with
  | none => ⟨⟨400, "Image URL required"⟩, posts, false, false⟩
  | some url =>
    if url = "" then ⟨⟨400, "Image URL required"⟩, posts, false, false⟩
    else
      match instagramSelected uid accounts with
      | none => ⟨⟨400, "No Instagram account selected"⟩, posts, false, false⟩
      | some _ =>
        match container with
        | .error _ => ⟨⟨500, "Failed to publish to Instagram"⟩, posts, true, false⟩
        | .ok _ =>
          match publishCall with
          | .error _ => ⟨⟨500, "Failed to publish to Instagram"⟩, posts, true, true⟩
          | .ok mediaId =>
            let posts' :=
              match postId with
              | some n => if n ≠ 0 then markPublished now n mediaId posts else posts
              | none => posts
            ⟨⟨200, "Photo published to Instagram"⟩, posts', true, true⟩

/-- Row of `twitter_tweets` (database.sql lines 127-139). -/
structure TweetRow where
  user_id : Nat
  twitter_id : String
  tweet_id : String
  text : String
  likes_count : Int
  retweets_count : Int
  replies_count : Int
  created_time : String
  fetched_at : Nat
  deriving DecidableEq, Repr

/-- A tweet record as returned by the Twitter API v2
(fields `id,text` plus `public_metrics` and `created_at`). -/
structure TweetRec where
  id : String
  text : String
  like_count : Option Int
  retweet_count : Option Int
  reply_count : Option Int
  created_at : Option String
  deriving DecidableEq, Repr

/-- The `ON CONFLICT (twitter_id, tweet_id)` key predicate. -/
def tweetKey (twId tid : String) (r : TweetRow) : Bool :=
  decide (r.twitter_id = twId ∧ r.tweet_id = tid)

/-- The `DO UPDATE SET text = $4, likes_count = $5, retweets_count = $6,
replies_count = $7` clause of the tweets upsert. -/
def tweetUpdate (tw : TweetRec) (r : TweetRow) : TweetRow :=
  { r with text := tw.text, likes_count := jsIntOr0 tw.like_count,
           retweets_count := jsIntOr0 tw.retweet_count,
           replies_count := jsIntOr0 tw.reply_count }

/-- One iteration of the `GET /tweets` store loop (twitterRoutes.js
lines 202-218): `INSERT ... ON CONFLICT (twitter_id, tweet_id)
DO UPDATE SET text = $4, likes_count = $5, retweets_count = $6,
replies_count = $7`. -/
def upsertTwitterTweet (now : Nat) (nowIso : String) (uid : Nat)
    (twId : String) (t : List TweetRow) (tw : TweetRec) : List TweetRow :=
  if t.any (tweetKey twId tw.id) then
    t.map fun r => if tweetKey twId tw.id r then tweetUpdate tw r else r
  else
    t ++ [{ user_id := uid, twitter_id := twId, tweet_id := tw.id,
            text := tw.text, likes_count := jsIntOr0 tw.like_count,
            retweets_count := jsIntOr0 tw.retweet_count,
            replies_count := jsIntOr0 tw.reply_count,
            created_time := tw.created_at.getD nowIso, fetched_at := now }]

/-- The whole `GET /tweets` store loop over a fetched tweet list. -/
def syncTwitterTweets (now : Nat) (nowIso : String) (uid : Nat)
    (twId : String) (t : List TweetRow) (tws : List TweetRec) : List TweetRow :=
  tws.foldl (upsertTwitterTweet now nowIso uid twId) t

/-- `SELECT` of the `twitter_tweets` row with a given
`(twitter_id, tweet_id)` key. -/
def findTwitterTweet (twId tid : String) (t : List TweetRow) :
    Option TweetRow :=
  t.find? (tweetKey twId tid)

/-- Row of `twitter_accounts` (database.sql lines 111-124), with the
columns the routes read. -/
structure TwAccountRow where
  user_id : Nat
  twitter_id : String
  username : String
  followers_count : Int
  is_selected : Bool
  access_token : String
  created_at : Nat
  deriving DecidableEq, Repr

/-- `SELECT * FROM twitter_accounts WHERE user_id = $1 AND
is_selected = TRUE LIMIT 1`. -/
def twitterSelected (uid : Nat) (t : List TwAccountRow) : Option TwAccountRow :=
  (t.filter fun a => decide (a.user_id = uid ∧ a.is_selected = true)).head?

/-- Result of the `POST /tweet` handler; `validationPassed` records
whether control passed the two `text` checks at the top of the body. -/
structure TweetOut where
  resp : Resp
  posts : List ScheduledPost
  providerCalled : Bool
  validationPassed : Bool
  deriving Repr

/-- `POST /tweet` (twitterRoutes.js lines 297-345): reject a falsy
`text` (absent or empty), then a `text` longer than 280 characters;
require a selected account; post the tweet (outcome passed as a
parameter); on success — only when `postId` is truthy — run the
`scheduled_posts` update, which matches `id` alone with no ownership
check. -/
def twitterPostTweet (uid : Nat) (postId : Option Nat) (text : Option String)
    (accounts : List TwAccountRow) (posts : List ScheduledPost)
    (provider : Except String String) (now : Nat) : TweetOut :=
  match text with
  | none => ⟨⟨400, "Tweet text required"⟩, posts, false, false⟩
  | some s =>
    if s = "" then ⟨⟨400, "Tweet text required"⟩, posts, false, false⟩
    else if s.length > 280 then
      ⟨⟨400, "Tweet must be 280 characters or less"⟩, posts, false, false⟩
    else
      match twitterSelected uid accounts with
      | none => ⟨⟨400, "No Twitter account selected"⟩, posts, false, true⟩
      | some _ =>
        match provider with
        | .error _ => ⟨⟨500, "Failed to post tweet"⟩, posts, true, true⟩
        | .ok tid =>
          let posts' :=
            match postId with
            | some n => if n ≠ 0 then markPublished now n tid posts else posts
            | none => posts
          ⟨⟨200, "Tweet posted successfully"⟩, posts', true, true⟩

/-- Semantic effect of one pages upsert on the row stored at its own
key: update the row when present, insert a fresh one otherwise. -/
def applyUpsert (now uid : Nat) (p : FBPage) : Option PageRow → PageRow
  | some r => pageUpdate p r
  | none => pageInsert now uid p

/-- Two `facebook_pages` rows respect the `UNIQUE (user_id, page_id)`
constraint when their keys differ. -/
def keyDistinct (a b : PageRow) : Prop :=
  a.user_id ≠ b.user_id ∨ a.page_id ≠ b.page_id

instance : DecidableRel keyDistinct := fun a b =>
  inferInstanceAs (Decidable (a.user_id ≠ b.user_id ∨ a.page_id ≠ b.page_id))

/-! ### Helper lemmas -/

theorem pageKey_iff (u : Nat) (pid : String) (r : PageRow) :
    pageKey u pid r = true ↔ r.user_id = u ∧ r.page_id = pid := by
  simp [pageKey]

theorem pageKey_setSelected (u : Nat) (pid : String) (b : Bool) (r : PageRow) :
    pageKey u pid (setSelected b r) = pageKey u pid r := rfl

theorem pageKey_deselectIfOwner (u u' : Nat) (pid : String) (r : PageRow) :
    pageKey u' pid (deselectIfOwner u r) = pageKey u' pid r := by
  unfold deselectIfOwner
  split <;> rfl

theorem pageKey_selectIfKey (u u' : Nat) (pid pid' : String) (r : PageRow) :
    pageKey u' pid' (selectIfKey u pid r) = pageKey u' pid' r := by
  unfold selectIfKey
  split <;> rfl

theorem pageKey_pageUpdate (u : Nat) (pid : String) (p : FBPage) (r : PageRow) :
    pageKey u pid (pageUpdate p r) = pageKey u pid r := rfl

theorem filter_map_of_inv {α : Type} (f : α → α) (q : α → Bool)
    (h : ∀ r, q (f r) = q r) (t : List α) :
    (t.map f).filter q = (t.filter q).map f := by
  rw [List.filter_map]
  exact congrArg (List.map f) (List.filter_congr fun x _ => h x)

theorem ownerSel_select_deselect (u : Nat) (pid : String) (r : PageRow) :
    ownerSel u (selectIfKey u pid (deselectIfOwner u r)) = pageKey u pid r := by
  unfold ownerSel selectIfKey deselectIfOwner setSelected pageKey
  by_cases h1 : r.user_id = u <;> by_cases h2 : r.page_id = pid <;>
    simp [h1, h2]

theorem ownerSel_deselect (u : Nat) (r : PageRow) :
    ownerSel u (deselectIfOwner u r) = false := by
  unfold ownerSel deselectIfOwner setSelected
  by_cases h1 : r.user_id = u <;> simp [h1]

theorem page_id_select_deselect (u : Nat) (pid : String) (r : PageRow) :
    (selectIfKey u pid (deselectIfOwner u r)).page_id = r.page_id := by
  unfold selectIfKey deselectIfOwner setSelected
  split <;> split <;> rfl


theorem filter_pageKey_length_one (u : Nat) (pid : String) (t : List PageRow)
    (hpw : t.Pairwise keyDistinct) (hex : ∃ r ∈ t, pageKey u pid r = true) :
    (t.filter (pageKey u pid)).length = 1 := by
  induction t with
  | nil => simp at hex
  | cons a l ih =>
    rw [List.pairwise_cons] at hpw
    obtain ⟨ha, hl⟩ := hpw
    by_cases hk : pageKey u pid a = true
    · rw [List.filter_cons_of_pos hk]
      have hnone : l.filter (pageKey u pid) = [] := by
        rw [List.filter_eq_nil_iff]
        intro b hb hkb
        have h1 := (pageKey_iff u pid a).mp hk
        have h2 := (pageKey_iff u pid b).mp (by simpa using hkb)
        rcases ha b hb with h | h
        · exact h (h1.1.trans h2.1.symm)
        · exact h (h1.2.trans h2.2.symm)
      rw [hnone]
      rfl
    · rw [List.filter_cons_of_neg (by simpa using hk)]
      apply ih hl
      obtain ⟨r, hr, hkr⟩ := hex
      cases hr with
      | head => exact absurd hkr hk
      | tail _ h => exact ⟨r, h, hkr⟩

/-! ### Handler step lemmas -/

theorem facebookPublish_post_absent (uid postId : Nat) (pages : List PageRow)
    (posts : List ScheduledPost) (provider : Except String String) (now : Nat)
    (h : posts.find? (postOwnerKey uid postId) = none) :
    facebookPublish uid postId pages posts provider now =
      ⟨⟨404, "Post not found"⟩, posts, false⟩ := by
  unfold facebookPublish
  rw [h]

theorem facebookPublish_post_found (uid postId : Nat) (pages : List PageRow)
    (posts : List ScheduledPost) (provider : Except String String) (now : Nat)
    (post : ScheduledPost)
    (h : posts.find? (postOwnerKey uid postId) = some post) :
    facebookPublish uid postId pages posts provider now =
      match pageByPageId pages post.page_id with
      | none => ⟨⟨400, "Page not found"⟩, posts, false⟩
      | some _ =>
        match provider with
        | .error _ => ⟨⟨500, "Failed to publish post"⟩, posts, true⟩
        | .ok fid =>
          ⟨⟨200, "Post published successfully"⟩,
            markPublished now postId fid posts, true⟩ := by
  unfold facebookPublish
  rw [h]

theorem twitterPostTweet_text_absent (uid : Nat) (postId : Option Nat)
    (accounts : List TwAccountRow) (posts : List ScheduledPost)
    (provider : Except String String) (now : Nat) :
    twitterPostTweet uid postId none accounts posts provider now =
      ⟨⟨400, "Tweet text required"⟩, posts, false, false⟩ := rfl

theorem twitterPostTweet_text_blank (uid : Nat) (postId : Option Nat)
    (s : String) (accounts : List TwAccountRow) (posts : List ScheduledPost)
    (provider : Except String String) (now : Nat) (hs : s = "") :
    twitterPostTweet uid postId (some s) accounts posts provider now =
      ⟨⟨400, "Tweet text required"⟩, posts, false, false⟩ := by
  simp only [twitterPostTweet]
  rw [if_pos hs]

theorem twitterPostTweet_text_long (uid : Nat) (postId : Option Nat)
    (s : String) (accounts : List TwAccountRow) (posts : List ScheduledPost)
    (provider : Except String String) (now : Nat) (hs : s ≠ "")
    (hlen : s.length > 280) :
    twitterPostTweet uid postId (some s) accounts posts provider now =
      ⟨⟨400, "Tweet must be 280 characters or less"⟩, posts, false, false⟩ := by
  simp only [twitterPostTweet]
  rw [if_neg hs, if_pos hlen]

theorem twitterPostTweet_text_valid (uid : Nat) (postId : Option Nat)
    (s : String) (accounts : List TwAccountRow) (posts : List ScheduledPost)
    (provider : Except String String) (now : Nat) (hs : s ≠ "")
    (hlen : ¬s.length > 280) :
    twitterPostTweet uid postId (some s) accounts posts provider now =
      (match twitterSelected uid accounts with
       | none => ⟨⟨400, "No Twitter account selected"⟩, posts, false, true⟩
       | some _ =>
         match provider with
         | .error _ => ⟨⟨500, "Failed to post tweet"⟩, posts, true, true⟩
         | .ok tid =>
           ⟨⟨200, "Tweet posted successfully"⟩,
             (match postId with
              | some n => if n ≠ 0 then markPublished now n tid posts else posts
              | none => posts), true, true⟩) := by
  simp only [twitterPostTweet]
  rw [if_neg hs, if_neg hlen]

theorem instagramPublish_url_valid (uid : Nat) (postId : Option Nat)
    (url : String) (accounts : List IGAccountRow) (posts : List ScheduledPost)
    (container publishCall : Except String String) (now : Nat)
    (hu : url ≠ "") :
    instagramPublish uid postId (some url) accounts posts container
        publishCall now =
      (match instagramSelected uid accounts with
       | none => ⟨⟨400, "No Instagram account selected"⟩, posts, false, false⟩
       | some _ =>
         match container with
         | .error _ => ⟨⟨500, "Failed to publish to Instagram"⟩, posts, true, false⟩
         | .ok _ =>
           match publishCall with
           | .error _ => ⟨⟨500, "Failed to publish to Instagram"⟩, posts, true, true⟩
           | .ok mediaId =>
             ⟨⟨200, "Photo published to Instagram"⟩,
               (match postId with
                | some n => if n ≠ 0 then markPublished now n mediaId posts else posts
                | none => posts), true, true⟩) := by
  simp only [instagramPublish]
  rw [if_neg hu]

/-! ### Claim theorems -/

/-- C7: the insights store is insert-only with first-write-wins
semantics — if a `facebook_insights` row with key `(page_id,
metric_name, insight_date)` already exists, a later write with the same
key is silently dropped (`ON CONFLICT DO NOTHING` leaves the table
unchanged) and the stored row keeps the first-written value. -/
theorem c7_insights_first_write_wins (now uid : Nat)
    (pid metric date : String) (v : Int) (t : List InsightRow)
    (r : InsightRow) (h : t.find? (insightKey pid metric date) = some r) :
    insertFacebookInsight now uid pid metric v date t = t ∧
      (insertFacebookInsight now uid pid metric v date t).find?
        (insightKey pid metric date) = some r := by
  have hany : t.any (insightKey pid metric date) = true := by
    rw [List.any_eq_true]
    exact ⟨r, List.mem_of_find?_eq_some h, List.find?_some h⟩
  unfold insertFacebookInsight
  rw [if_pos hany]
  exact ⟨rfl, h⟩

/-- C7 witness: in a table already holding `page_fans = 10` for
`("p", "2024-01-01")`, a later write of 99 with the same key is dropped
and the stored value remains 10. -/
theorem c7_insights_first_write_wins_witness :
    ([⟨1, "p", "page_fans", 10, "2024-01-01", 0⟩] : List InsightRow).find?
        (insightKey "p" "page_fans" "2024-01-01") =
      some ⟨1, "p", "page_fans", 10, "2024-01-01", 0⟩ ∧
    (insertFacebookInsight 5 1 "p" "page_fans" 99 "2024-01-01"
          [⟨1, "p", "page_fans", 10, "2024-01-01", 0⟩] =
        [⟨1, "p", "page_fans", 10, "2024-01-01", 0⟩] ∧
      (insertFacebookInsight 5 1 "p" "page_fans" 99 "2024-01-01"
            [⟨1, "p", "page_fans", 10, "2024-01-01", 0⟩]).find?
          (insightKey "p" "page_fans" "2024-01-01") =
        some ⟨1, "p", "page_fans", 10, "2024-01-01", 0⟩) :=
  ⟨by decide,
    c7_insights_first_write_wins 5 1 "p" "page_fans" "2024-01-01" 99
      [⟨1, "p", "page_fans", 10, "2024-01-01", 0⟩]
      ⟨1, "p", "page_fans", 10, "2024-01-01", 0⟩ (by decide)⟩

/-- C1 counterexample: a scheduled post whose `status` is already
`"published"` (owner 7, post 1, page "P") is loaded by `POST /publish`,
the provider call is reached, the request succeeds with 200 and the row
is rewritten — the handler does not fail for an already-published item
and does perform a provider call and a state change. -/
theorem c1_counterexample :
    (facebookPublish 7 1
        [⟨7, "P", "N", "tok", none, 5, true, 0⟩]
        [⟨1, 7, some "P", "hello", 0, "published", none, some "old", some 3, 0⟩]
        (Except.ok "new") 9).providerCalled = true ∧
    (facebookPublish 7 1
        [⟨7, "P", "N", "tok", none, 5, true, 0⟩]
        [⟨1, 7, some "P", "hello", 0, "published", none, some "old", some 3, 0⟩]
        (Except.ok "new") 9).resp.status = 200 ∧
    (facebookPublish 7 1
        [⟨7, "P", "N", "tok", none, 5, true, 0⟩]
        [⟨1, 7, some "P", "hello", 0, "published", none, some "old", some 3, 0⟩]
        (Except.ok "new") 9).posts ≠
      [⟨1, 7, some "P", "hello", 0, "published", none, some "old", some 3, 0⟩] := by
  decide

/-- C1 amended: `POST /publish` never inspects the loaded item's
`status`.  Whenever a scheduled post matches `(id, user_id)` and a
`facebook_pages` row matches its `page_id`, the provider call is made
regardless of `status` (in particular for `status = "published"`), and
on provider success the row is overwritten with `status = "published"`,
the new remote post id and a fresh `published_at`; the only pre-provider
failures are the missing-post 404 and missing-page 400. -/
theorem c1_amended_no_status_check (uid postId : Nat) (pages : List PageRow)
    (posts : List ScheduledPost) (now : Nat) (post : ScheduledPost)
    (fid : String)
    (hpost : posts.find? (postOwnerKey uid postId) = some post)
    (pg : PageRow) (hpage : pageByPageId pages post.page_id = some pg) :
    (facebookPublish uid postId pages posts (Except.ok fid) now).providerCalled
        = true ∧
    (facebookPublish uid postId pages posts (Except.ok fid) now).resp.status
        = 200 ∧
    (facebookPublish uid postId pages posts (Except.ok fid) now).posts =
      markPublished now postId fid posts := by
  rw [facebookPublish_post_found uid postId pages posts (Except.ok fid) now
    post hpost, hpage]
  exact ⟨rfl, rfl, rfl⟩

/-- C1 amended witness: the concrete already-published post of the
counterexample is republished with the new remote id. -/
theorem c1_amended_no_status_check_witness :
    ([⟨1, 7, some "P", "hello", 0, "published", none, some "old", some 3, 0⟩] :
        List ScheduledPost).find? (postOwnerKey 7 1) =
      some ⟨1, 7, some "P", "hello", 0, "published", none, some "old", some 3, 0⟩ ∧
    pageByPageId [⟨7, "P", "N", "tok", none, 5, true, 0⟩]
        (ScheduledPost.page_id ⟨1, 7, some "P", "hello", 0, "published", none, some "old", some 3, 0⟩) =
      some ⟨7, "P", "N", "tok", none, 5, true, 0⟩ ∧
    ((facebookPublish 7 1 [⟨7, "P", "N", "tok", none, 5, true, 0⟩]
          [⟨1, 7, some "P", "hello", 0, "published", none, some "old", some 3, 0⟩]
          (Except.ok "fid") 9).providerCalled = true ∧
      (facebookPublish 7 1 [⟨7, "P", "N", "tok", none, 5, true, 0⟩]
          [⟨1, 7, some "P", "hello", 0, "published", none, some "old", some 3, 0⟩]
          (Except.ok "fid") 9).resp.status = 200 ∧
      (facebookPublish 7 1 [⟨7, "P", "N", "tok", none, 5, true, 0⟩]
          [⟨1, 7, some "P", "hello", 0, "published", none, some "old", some 3, 0⟩]
          (Except.ok "fid") 9).posts =
        markPublished 9 1 "fid"
          [⟨1, 7, some "P", "hello", 0, "published", none, some "old", some 3, 0⟩]) :=
  ⟨by decide, by decide,
    c1_amended_no_status_check 7 1 [⟨7, "P", "N", "tok", none, 5, true, 0⟩]
      [⟨1, 7, some "P", "hello", 0, "published", none, some "old", some 3, 0⟩] 9
      ⟨1, 7, some "P", "hello", 0, "published", none, some "old", some 3, 0⟩
      "fid" (by decide) ⟨7, "P", "N", "tok", none, 5, true, 0⟩ (by decide)⟩

/-- C8: when the outbound create-post call fails (for the Facebook
publish handler and the Twitter tweet handler alike), the handler
returns a 500 failure and the `scheduled_posts` table is left exactly as
it was — the item keeps its `pending` status and every other field. -/
theorem c8_provider_failure_no_state_change
    (uid postId : Nat) (pages : List PageRow) (posts : List ScheduledPost)
    (e : String) (now : Nat)
    (hfb : (facebookPublish uid postId pages posts (Except.error e)
      now).providerCalled = true)
    (u2 : Nat) (postId2 : Option Nat) (s : String)
    (accounts : List TwAccountRow) (posts2 : List ScheduledPost)
    (e2 : String) (now2 : Nat)
    (htw : (twitterPostTweet u2 postId2 (some s) accounts posts2
      (Except.error e2) now2).providerCalled = true) :
    ((facebookPublish uid postId pages posts (Except.error e) now).resp.status
        = 500 ∧
      (facebookPublish uid postId pages posts (Except.error e) now).posts
        = posts) ∧
    ((twitterPostTweet u2 postId2 (some s) accounts posts2 (Except.error e2)
          now2).resp.status = 500 ∧
      (twitterPostTweet u2 postId2 (some s) accounts posts2 (Except.error e2)
          now2).posts = posts2) := by
  constructor
  · cases hfind : posts.find? (postOwnerKey uid postId) with
    | none =>
      rw [facebookPublish_post_absent uid postId pages posts
        (Except.error e) now hfind] at hfb
      simp at hfb
    | some post =>
      rw [facebookPublish_post_found uid postId pages posts
        (Except.error e) now post hfind] at hfb ⊢
      cases hpg : pageByPageId pages post.page_id with
      | none => rw [hpg] at hfb; simp at hfb
      | some pg => exact ⟨rfl, rfl⟩
  · by_cases hs : s = ""
    · rw [twitterPostTweet_text_blank u2 postId2 s accounts posts2
        (Except.error e2) now2 hs] at htw
      simp at htw
    · by_cases hlen : s.length > 280
      · rw [twitterPostTweet_text_long u2 postId2 s accounts posts2
          (Except.error e2) now2 hs hlen] at htw
        simp at htw
      · rw [twitterPostTweet_text_valid u2 postId2 s accounts posts2
          (Except.error e2) now2 hs hlen] at htw ⊢
        cases hsel : twitterSelected u2 accounts with
        | none => rw [hsel] at htw; simp at htw
        | some a => exact ⟨rfl, rfl⟩

/-- C8 witness: concrete failing provider calls for both handlers leave
the concrete pending posts untouched and return 500. -/
theorem c8_provider_failure_no_state_change_witness :
    (facebookPublish 7 1 [⟨7, "P", "N", "tok", none, 5, true, 0⟩]
        [⟨1, 7, some "P", "hello", 0, "pending", none, none, none, 0⟩]
        (Except.error "boom") 9).providerCalled = true ∧
    (twitterPostTweet 3 (some 2) (some "hi")
        [⟨3, "tw", "alice", 5, true, "tok", 0⟩]
        [⟨2, 3, none, "hello", 0, "pending", none, none, none, 0⟩]
        (Except.error "boom") 9).providerCalled = true ∧
    (((facebookPublish 7 1 [⟨7, "P", "N", "tok", none, 5, true, 0⟩]
          [⟨1, 7, some "P", "hello", 0, "pending", none, none, none, 0⟩]
          (Except.error "boom") 9).resp.status = 500 ∧
        (facebookPublish 7 1 [⟨7, "P", "N", "tok", none, 5, true, 0⟩]
            [⟨1, 7, some "P", "hello", 0, "pending", none, none, none, 0⟩]
            (Except.error "boom") 9).posts =
          [⟨1, 7, some "P", "hello", 0, "pending", none, none, none, 0⟩]) ∧
      ((twitterPostTweet 3 (some 2) (some "hi")
            [⟨3, "tw", "alice", 5, true, "tok", 0⟩]
            [⟨2, 3, none, "hello", 0, "pending", none, none, none, 0⟩]
            (Except.error "boom") 9).resp.status = 500 ∧
        (twitterPostTweet 3 (some 2) (some "hi")
            [⟨3, "tw", "alice", 5, true, "tok", 0⟩]
            [⟨2, 3, none, "hello", 0, "pending", none, none, none, 0⟩]
            (Except.error "boom") 9).posts =
          [⟨2, 3, none, "hello", 0, "pending", none, none, none, 0⟩])) :=
  ⟨by decide, by decide,
    c8_provider_failure_no_state_change 7 1
      [⟨7, "P", "N", "tok", none, 5, true, 0⟩]
      [⟨1, 7, some "P", "hello", 0, "pending", none, none, none, 0⟩] "boom" 9
      (by decide) 3 (some 2) "hi" [⟨3, "tw", "alice", 5, true, "tok", 0⟩]
      [⟨2, 3, none, "hello", 0, "pending", none, none, none, 0⟩] "boom" 9
      (by decide)⟩

/-- C2 counterexample: owner 1 has page "A" selected; `select(1, "B")`
with "B" not owned by 1 returns 404 but leaves owner 1 with **no**
selected page — the selection state is not the one from before the
call. -/
theorem c2_counterexample :
    (facebookSelectPage 1 (some "B")
        [⟨1, "A", "N", "tk", none, 0, true, 0⟩]).resp.status = 404 ∧
    (facebookSelectPage 1 (some "B")
        [⟨1, "A", "N", "tk", none, 0, true, 0⟩]).table ≠
      [⟨1, "A", "N", "tk", none, 0, true, 0⟩] ∧
    facebookGetSelected 1
        [⟨1, "A", "N", "tk", none, 0, true, 0⟩] =
      some ⟨1, "A", "N", "tk", none, 0, true, 0⟩ ∧
    facebookGetSelected 1
        (facebookSelectPage 1 (some "B")
          [⟨1, "A", "N", "tk", none, 0, true, 0⟩]).table = none := by
  decide

/-- C2 amended: `select(owner, R)` for an `R` that matches none of the
owner's rows fails 404, but the selection state is **not** unchanged:
because the deselect-all statement runs before the ownership check, the
resulting table is the fully deselected one, and the owner is left with
no selected resource. -/
theorem c2_amended_foreign_select_clears_selection (uid : Nat)
    (pid : String) (t : List PageRow) (hp : pid ≠ "")
    (hno : ∀ r ∈ t, pageKey uid pid r = false) :
    (facebookSelectPage uid (some pid) t).resp.status = 404 ∧
    (facebookSelectPage uid (some pid) t).table = facebookDeselectAll uid t ∧
    facebookGetSelected uid (facebookSelectPage uid (some pid) t).table =
      none := by
  have hfil : (facebookDeselectAll uid t).filter (pageKey uid pid) = [] := by
    rw [List.filter_eq_nil_iff]
    intro r hr
    obtain ⟨r0, hr0, rfl⟩ := List.mem_map.mp hr
    rw [pageKey_deselectIfOwner, hno r0 hr0]
    simp
  have hsel : facebookSelectPage uid (some pid) t =
      ⟨⟨404, "Page not found"⟩, none, facebookDeselectAll uid t⟩ := by
    simp only [facebookSelectPage]
    rw [if_neg hp, hfil]
    rfl
  have hnone : facebookGetSelected uid (facebookDeselectAll uid t) = none := by
    unfold facebookGetSelected facebookDeselectAll
    have : (t.map (deselectIfOwner uid)).filter (ownerSel uid) = [] := by
      rw [List.filter_eq_nil_iff]
      intro r hr
      obtain ⟨r0, hr0, rfl⟩ := List.mem_map.mp hr
      rw [ownerSel_deselect]
      simp
    rw [this]
    rfl
  exact ⟨by rw [hsel], by rw [hsel], by rw [hsel]; exact hnone⟩

/-- C2 amended witness: the concrete one-row table of the counterexample
instantiates the amended statement. -/
theorem c2_amended_foreign_select_clears_selection_witness :
    (facebookSelectPage 1 (some "B")
        [⟨1, "A", "N", "tk", none, 0, true, 0⟩]).resp.status = 404 ∧
    (facebookSelectPage 1 (some "B")
        [⟨1, "A", "N", "tk", none, 0, true, 0⟩]).table =
      facebookDeselectAll 1 [⟨1, "A", "N", "tk", none, 0, true, 0⟩] ∧
    facebookGetSelected 1
        (facebookSelectPage 1 (some "B")
          [⟨1, "A", "N", "tk", none, 0, true, 0⟩]).table = none :=
  c2_amended_foreign_select_clears_selection 1 "B"
    [⟨1, "A", "N", "tk", none, 0, true, 0⟩] (by decide) (by decide)

/-- C4 counterexample: upserting a provider record with an existing key
`(1, "42")` but a different page access token rewrites the stored
`page_access_token` from "t1" to "t2" — a field that is neither an
engagement count nor the display name — so the claim that **only**
engagement counts and display name change is false. -/
theorem c4_counterexample :
    Option.map PageRow.page_access_token
        (findFacebookPage 1 "42"
          (upsertFacebookPage 7 1 [⟨1, "42", "A", "t1", none, 10, false, 5⟩]
            ⟨"42", "A", "t2", none, some 15⟩)) = some "t2" ∧
    Option.map PageRow.page_access_token
        (findFacebookPage 1 "42" [⟨1, "42", "A", "t1", none, 10, false, 5⟩]) =
      some "t1" ∧
    ("t2" : String) ≠ "t1" := by
  decide

/-- C4 amended: when the upsert key already exists, the pages upsert
updates exactly the `DO UPDATE` columns — display name, **credential
(page access token)** and follower count — and the tweets upsert exactly
text and the three engagement counts; row count is unchanged, rows with
other keys are untouched, and the creation timestamp, native id, owner
and (for pages) picture and selection flag of a conflicting row are
never modified.  In particular re-upserting native id "42" with
followers 15 leaves one row with `followers_count = 15` and `created_at`
unchanged. -/
theorem c4_amended_upsert_updates_update_columns_only
    (now uid : Nat) (t : List PageRow) (p : FBPage)
    (h : t.any (pageKey uid p.id) = true)
    (now2 : Nat) (nowIso : String) (uid2 : Nat) (twId : String)
    (t2 : List TweetRow) (tw : TweetRec)
    (h2 : t2.any (tweetKey twId tw.id) = true) :
    ((upsertFacebookPage now uid t p).length = t.length ∧
      (∀ r ∈ t, pageKey uid p.id r = false →
        r ∈ upsertFacebookPage now uid t p) ∧
      (∀ r ∈ t, pageKey uid p.id r = true →
        pageUpdate p r ∈ upsertFacebookPage now uid t p) ∧
      (∀ r : PageRow, (pageUpdate p r).created_at = r.created_at ∧
        (pageUpdate p r).page_id = r.page_id ∧
        (pageUpdate p r).user_id = r.user_id ∧
        (pageUpdate p r).profile_picture_url = r.profile_picture_url ∧
        (pageUpdate p r).is_selected = r.is_selected ∧
        (pageUpdate p r).page_name = p.name ∧
        (pageUpdate p r).page_access_token = p.access_token ∧
        (pageUpdate p r).followers_count = jsIntOr0 p.followers_count)) ∧
    ((upsertTwitterTweet now2 nowIso uid2 twId t2 tw).length = t2.length ∧
      (∀ r ∈ t2, tweetKey twId tw.id r = false →
        r ∈ upsertTwitterTweet now2 nowIso uid2 twId t2 tw) ∧
      (∀ r ∈ t2, tweetKey twId tw.id r = true →
        tweetUpdate tw r ∈ upsertTwitterTweet now2 nowIso uid2 twId t2 tw) ∧
      (∀ r : TweetRow, (tweetUpdate tw r).created_time = r.created_time ∧
        (tweetUpdate tw r).fetched_at = r.fetched_at ∧
        (tweetUpdate tw r).tweet_id = r.tweet_id ∧
        (tweetUpdate tw r).twitter_id = r.twitter_id ∧
        (tweetUpdate tw r).user_id = r.user_id ∧
        (tweetUpdate tw r).text = tw.text ∧
        (tweetUpdate tw r).likes_count = jsIntOr0 tw.like_count ∧
        (tweetUpdate tw r).retweets_count = jsIntOr0 tw.retweet_count ∧
        (tweetUpdate tw r).replies_count = jsIntOr0 tw.reply_count)) := by
  constructor
  · refine ⟨?_, ?_, ?_, fun r => ⟨rfl, rfl, rfl, rfl, rfl, rfl, rfl, rfl⟩⟩
    · unfold upsertFacebookPage
      rw [if_pos h, List.length_map]
    · intro r hr hk
      unfold upsertFacebookPage
      rw [if_pos h]
      have hm : (if pageKey uid p.id r = true then pageUpdate p r else r) ∈
          t.map (fun r => if pageKey uid p.id r then pageUpdate p r else r) :=
        List.mem_map_of_mem _ hr
      rw [if_neg (by simp [hk])] at hm
      exact hm
    · intro r hr hk
      unfold upsertFacebookPage
      rw [if_pos h]
      have hm : (if pageKey uid p.id r = true then pageUpdate p r else r) ∈
          t.map (fun r => if pageKey uid p.id r then pageUpdate p r else r) :=
        List.mem_map_of_mem _ hr
      rw [if_pos hk] at hm
      exact hm
  · refine ⟨?_, ?_, ?_, fun r => ⟨rfl, rfl, rfl, rfl, rfl, rfl, rfl, rfl, rfl⟩⟩
    · unfold upsertTwitterTweet
      rw [if_pos h2, List.length_map]
    · intro r hr hk
      unfold upsertTwitterTweet
      rw [if_pos h2]
      have hm : (if tweetKey twId tw.id r = true then tweetUpdate tw r else r) ∈
          t2.map (fun r => if tweetKey twId tw.id r then tweetUpdate tw r else r) :=
        List.mem_map_of_mem _ hr
      rw [if_neg (by simp [hk])] at hm
      exact hm
    · intro r hr hk
      unfold upsertTwitterTweet
      rw [if_pos h2]
      have hm : (if tweetKey twId tw.id r = true then tweetUpdate tw r else r) ∈
          t2.map (fun r => if tweetKey twId tw.id r then tweetUpdate tw r else r) :=
        List.mem_map_of_mem _ hr
      rw [if_pos hk] at hm
      exact hm

/-- C4 amended witness: the spec example — upsert native id "42" with
followers 10, then again with followers 15: one row remains,
`followers_count` is 15 and `created_at` is still 5. -/
theorem c4_amended_upsert_updates_update_columns_only_witness :
    ([⟨1, "42", "A", "t", none, 10, false, 5⟩] : List PageRow).any
        (pageKey 1 (FBPage.id ⟨"42", "A", "t", none, some 15⟩)) = true ∧
    ([⟨9, "tw", "100", "x", 0, 0, 0, "d", 4⟩] : List TweetRow).any
        (tweetKey "tw" (TweetRec.id ⟨"100", "y", some 2, some 1, some 0, none⟩))
      = true ∧
    (upsertFacebookPage 8 1 [⟨1, "42", "A", "t", none, 10, false, 5⟩]
        ⟨"42", "A", "t", none, some 15⟩).length = 1 ∧
    pageUpdate ⟨"42", "A", "t", none, some 15⟩
        ⟨1, "42", "A", "t", none, 10, false, 5⟩ ∈
      upsertFacebookPage 8 1 [⟨1, "42", "A", "t", none, 10, false, 5⟩]
        ⟨"42", "A", "t", none, some 15⟩ ∧
    (pageUpdate ⟨"42", "A", "t", none, some 15⟩
        ⟨1, "42", "A", "t", none, 10, false, 5⟩).followers_count = 15 ∧
    (pageUpdate ⟨"42", "A", "t", none, some 15⟩
        ⟨1, "42", "A", "t", none, 10, false, 5⟩).created_at = 5 ∧
    tweetUpdate ⟨"100", "y", some 2, some 1, some 0, none⟩
        ⟨9, "tw", "100", "x", 0, 0, 0, "d", 4⟩ ∈
      upsertTwitterTweet 8 "iso" 9 "tw" [⟨9, "tw", "100", "x", 0, 0, 0, "d", 4⟩]
        ⟨"100", "y", some 2, some 1, some 0, none⟩ :=
  ⟨by decide, by decide,
    (c4_amended_upsert_updates_update_columns_only 8 1
        [⟨1, "42", "A", "t", none, 10, false, 5⟩]
        ⟨"42", "A", "t", none, some 15⟩ (by decide)
        8 "iso" 9 "tw" [⟨9, "tw", "100", "x", 0, 0, 0, "d", 4⟩]
        ⟨"100", "y", some 2, some 1, some 0, none⟩ (by decide)).1.1,
    (c4_amended_upsert_updates_update_columns_only 8 1
        [⟨1, "42", "A", "t", none, 10, false, 5⟩]
        ⟨"42", "A", "t", none, some 15⟩ (by decide)
        8 "iso" 9 "tw" [⟨9, "tw", "100", "x", 0, 0, 0, "d", 4⟩]
        ⟨"100", "y", some 2, some 1, some 0, none⟩ (by decide)).1.2.2.1
      ⟨1, "42", "A", "t", none, 10, false, 5⟩ (by decide) (by decide),
    by decide, by decide,
    (c4_amended_upsert_updates_update_columns_only 8 1
        [⟨1, "42", "A", "t", none, 10, false, 5⟩]
        ⟨"42", "A", "t", none, some 15⟩ (by decide)
        8 "iso" 9 "tw" [⟨9, "tw", "100", "x", 0, 0, 0, "d", 4⟩]
        ⟨"100", "y", some 2, some 1, some 0, none⟩ (by decide)).2.2.2.1
      ⟨9, "tw", "100", "x", 0, 0, 0, "d", 4⟩ (by decide) (by decide)⟩

theorem mediaKey_mediaUpdate (igId mid : String) (m : IGMedia) (r : MediaRow) :
    mediaKey igId mid (mediaUpdate m r) = mediaKey igId mid r := rfl

theorem tweetKey_tweetUpdate (twId tid : String) (tw : TweetRec) (r : TweetRow) :
    tweetKey twId tid (tweetUpdate tw r) = tweetKey twId tid r := rfl

theorem find_isSome_upsertFacebookPage (now uid u' : Nat) (pid : String)
    (t : List PageRow) (p : FBPage)
    (h : (findFacebookPage u' pid t).isSome = true) :
    (findFacebookPage u' pid (upsertFacebookPage now uid t p)).isSome = true := by
  unfold findFacebookPage at h ⊢
  unfold upsertFacebookPage
  by_cases hany : t.any (pageKey uid p.id)
  · rw [if_pos hany, List.find?_map]
    have hpred : (pageKey u' pid ∘ fun r =>
        if pageKey uid p.id r then pageUpdate p r else r) = pageKey u' pid := by
      funext r
      by_cases hk : pageKey uid p.id r <;>
        simp [Function.comp, hk, pageKey_pageUpdate]
    rw [hpred, Option.isSome_map']
    exact h
  · rw [if_neg hany, List.find?_append]
    obtain ⟨r, hr⟩ := Option.isSome_iff_exists.mp h
    rw [hr]
    rfl

theorem find_isSome_syncFacebookPages (now uid u' : Nat) (pid : String)
    (t : List PageRow) (ps : List FBPage)
    (h : (findFacebookPage u' pid t).isSome = true) :
    (findFacebookPage u' pid (syncFacebookPages now uid t ps)).isSome = true := by
  induction ps generalizing t with
  | nil => exact h
  | cons p ps ih => exact ih _ (find_isSome_upsertFacebookPage now uid u' pid t p h)

theorem find_isSome_upsertInstagramMedia (now : Nat) (nowIso : String)
    (uid : Nat) (igId igId' mid : String) (t : List MediaRow) (m : IGMedia)
    (h : (findInstagramMedia igId' mid t).isSome = true) :
    (findInstagramMedia igId' mid
      (upsertInstagramMedia now nowIso uid igId t m)).isSome = true := by
  unfold findInstagramMedia at h ⊢
  unfold upsertInstagramMedia
  by_cases hany : t.any (mediaKey igId m.id)
  · rw [if_pos hany, List.find?_map]
    have hpred : (mediaKey igId' mid ∘ fun r =>
        if mediaKey igId m.id r then mediaUpdate m r else r) = mediaKey igId' mid := by
      funext r
      by_cases hk : mediaKey igId m.id r <;>
        simp [Function.comp, hk, mediaKey_mediaUpdate]
    rw [hpred, Option.isSome_map']
    exact h
  · rw [if_neg hany, List.find?_append]
    obtain ⟨r, hr⟩ := Option.isSome_iff_exists.mp h
    rw [hr]
    rfl

theorem find_isSome_syncInstagramMedia (now : Nat) (nowIso : String)
    (uid : Nat) (igId igId' mid : String) (t : List MediaRow)
    (ms : List IGMedia)
    (h : (findInstagramMedia igId' mid t).isSome = true) :
    (findInstagramMedia igId' mid
      (syncInstagramMedia now nowIso uid igId t ms)).isSome = true := by
  induction ms generalizing t with
  | nil => exact h
  | cons m ms ih =>
    exact ih _ (find_isSome_upsertInstagramMedia now nowIso uid igId igId' mid t m h)

theorem find_isSome_upsertTwitterTweet (now : Nat) (nowIso : String)
    (uid : Nat) (twId twId' tid : String) (t : List TweetRow) (tw : TweetRec)
    (h : (findTwitterTweet twId' tid t).isSome = true) :
    (findTwitterTweet twId' tid
      (upsertTwitterTweet now nowIso uid twId t tw)).isSome = true := by
  unfold findTwitterTweet at h ⊢
  unfold upsertTwitterTweet
  by_cases hany : t.any (tweetKey twId tw.id)
  · rw [if_pos hany, List.find?_map]
    have hpred : (tweetKey twId' tid ∘ fun r =>
        if tweetKey twId tw.id r then tweetUpdate tw r else r) = tweetKey twId' tid := by
      funext r
      by_cases hk : tweetKey twId tw.id r <;>
        simp [Function.comp, hk, tweetKey_tweetUpdate]
    rw [hpred, Option.isSome_map']
    exact h
  · rw [if_neg hany, List.find?_append]
    obtain ⟨r, hr⟩ := Option.isSome_iff_exists.mp h
    rw [hr]
    rfl

theorem find_isSome_syncTwitterTweets (now : Nat) (nowIso : String)
    (uid : Nat) (twId twId' tid : String) (t : List TweetRow)
    (tws : List TweetRec)
    (h : (findTwitterTweet twId' tid t).isSome = true) :
    (findTwitterTweet twId' tid
      (syncTwitterTweets now nowIso uid twId t tws)).isSome = true := by
  induction tws generalizing t with
  | nil => exact h
  | cons tw tws ih =>
    exact ih _ (find_isSome_upsertTwitterTweet now nowIso uid twId twId' tid t tw h)

/-- C6: the mirror sync loops never delete a local row — for each of the
three platforms, every key present in the mirror table before a sync of
any fetched page of provider records is still present afterwards, even
when absent from the fetched page. -/
theorem c6_sync_never_deletes (now uid u' : Nat) (pid : String)
    (t : List PageRow) (ps : List FBPage)
    (h : (findFacebookPage u' pid t).isSome = true)
    (nowB : Nat) (nowIsoB : String) (uidB : Nat) (igId igId' mid : String)
    (tB : List MediaRow) (ms : List IGMedia)
    (hB : (findInstagramMedia igId' mid tB).isSome = true)
    (nowC : Nat) (nowIsoC : String) (uidC : Nat) (twId twId' tid : String)
    (tC : List TweetRow) (tws : List TweetRec)
    (hC : (findTwitterTweet twId' tid tC).isSome = true) :
    (findFacebookPage u' pid (syncFacebookPages now uid t ps)).isSome = true ∧
    (findInstagramMedia igId' mid
      (syncInstagramMedia nowB nowIsoB uidB igId tB ms)).isSome = true ∧
    (findTwitterTweet twId' tid
      (syncTwitterTweets nowC nowIsoC uidC twId tC tws)).isSome = true :=
  ⟨find_isSome_syncFacebookPages now uid u' pid t ps h,
    find_isSome_syncInstagramMedia nowB nowIsoB uidB igId igId' mid tB ms hB,
    find_isSome_syncTwitterTweets nowC nowIsoC uidC twId twId' tid tC tws hC⟩

/-- C6 witness: one concrete stale sync per platform — the fetched page
does not contain the stored key, yet the stored row's key survives. -/
theorem c6_sync_never_deletes_witness :
    (findFacebookPage 1 "A" [⟨1, "A", "N", "t", none, 3, false, 0⟩]).isSome
        = true ∧
    (findInstagramMedia "ig" "m1"
        [⟨1, "ig", "m1", none, "IMAGE", none, 2, 1, "d", 0⟩]).isSome = true ∧
    (findTwitterTweet "tw" "100"
        [⟨1, "tw", "100", "x", 0, 0, 0, "d", 0⟩]).isSome = true ∧
    ((findFacebookPage 1 "A"
        (syncFacebookPages 9 1 [⟨1, "A", "N", "t", none, 3, false, 0⟩]
          [⟨"B", "M", "t2", none, some 7⟩])).isSome = true ∧
      (findInstagramMedia "ig" "m1"
        (syncInstagramMedia 9 "iso" 1 "ig"
          [⟨1, "ig", "m1", none, "IMAGE", none, 2, 1, "d", 0⟩]
          [⟨"m2", none, "IMAGE", none, some 5, some 1, none⟩])).isSome = true ∧
      (findTwitterTweet "tw" "100"
        (syncTwitterTweets 9 "iso" 1 "tw"
          [⟨1, "tw", "100", "x", 0, 0, 0, "d", 0⟩]
          [⟨"200", "y", some 1, some 0, some 0, none⟩])).isSome = true) :=
  ⟨by decide, by decide, by decide,
    c6_sync_never_deletes 9 1 1 "A" [⟨1, "A", "N", "t", none, 3, false, 0⟩]
      [⟨"B", "M", "t2", none, some 7⟩] (by decide)
      9 "iso" 1 "ig" "ig" "m1"
      [⟨1, "ig", "m1", none, "IMAGE", none, 2, 1, "d", 0⟩]
      [⟨"m2", none, "IMAGE", none, some 5, some 1, none⟩] (by decide)
      9 "iso" 1 "tw" "tw" "100" [⟨1, "tw", "100", "x", 0, 0, 0, "d", 0⟩]
      [⟨"200", "y", some 1, some 0, some 0, none⟩] (by decide)⟩

/-- C9: the Instagram publish and Twitter tweet handlers update
`scheduled_posts` by `id` alone, with no ownership check — for any
caller with a selected account and a successful provider call, a
`postId` that identifies **another owner's** scheduled post marks that
other owner's post as published. -/
theorem c9_cross_owner_scheduled_post_update
    (u pid : Nat) (url : String) (accounts : List IGAccountRow)
    (posts : List ScheduledPost) (cid mid : String) (now : Nat)
    (post : ScheduledPost) (acct : IGAccountRow)
    (hu : url ≠ "") (hsel : instagramSelected u accounts = some acct)
    (hmem : post ∈ posts) (hid : post.id = pid) (hpid : pid ≠ 0)
    (hforeign : post.user_id ≠ u)
    (u2 pid2 : Nat) (s : String) (taccounts : List TwAccountRow)
    (posts2 : List ScheduledPost) (tid : String) (now2 : Nat)
    (post2 : ScheduledPost) (tacct : TwAccountRow)
    (hs : s ≠ "") (hlen : ¬s.length > 280)
    (hsel2 : twitterSelected u2 taccounts = some tacct)
    (hmem2 : post2 ∈ posts2) (hid2 : post2.id = pid2) (hpid2 : pid2 ≠ 0)
    (hforeign2 : post2.user_id ≠ u2) :
    ({ post with status := "published", facebook_post_id := some mid,
                 published_at := some now } ∈
      (instagramPublish u (some pid) (some url) accounts posts
        (Except.ok cid) (Except.ok mid) now).posts ∧
      (instagramPublish u (some pid) (some url) accounts posts
        (Except.ok cid) (Except.ok mid) now).resp.status = 200) ∧
    ({ post2 with status := "published", facebook_post_id := some tid,
                  published_at := some now2 } ∈
      (twitterPostTweet u2 (some pid2) (some s) taccounts posts2
        (Except.ok tid) now2).posts ∧
      (twitterPostTweet u2 (some pid2) (some s) taccounts posts2
        (Except.ok tid) now2).resp.status = 200) := by
  constructor
  · have hred : (instagramPublish u (some pid) (some url) accounts posts
        (Except.ok cid) (Except.ok mid) now).posts =
        markPublished now pid mid posts := by
      rw [instagramPublish_url_valid u (some pid) url accounts posts
        (Except.ok cid) (Except.ok mid) now hu, hsel]
      exact if_pos hpid
    have hst : (instagramPublish u (some pid) (some url) accounts posts
        (Except.ok cid) (Except.ok mid) now).resp.status = 200 := by
      rw [instagramPublish_url_valid u (some pid) url accounts posts
        (Except.ok cid) (Except.ok mid) now hu, hsel]
    refine ⟨?_, hst⟩
    rw [hred]
    have hm : (if post.id = pid then
        ({ post with status := "published", facebook_post_id := some mid,
                     published_at := some now }) else post) ∈
        posts.map (fun p => if p.id = pid then
          ({ p with status := "published", facebook_post_id := some mid,
                    published_at := some now }) else p) :=
      List.mem_map_of_mem _ hmem
    rw [if_pos hid] at hm
    exact hm
  · have hred : (twitterPostTweet u2 (some pid2) (some s) taccounts posts2
        (Except.ok tid) now2).posts = markPublished now2 pid2 tid posts2 := by
      rw [twitterPostTweet_text_valid u2 (some pid2) s taccounts posts2
        (Except.ok tid) now2 hs hlen, hsel2]
      exact if_pos hpid2
    have hst : (twitterPostTweet u2 (some pid2) (some s) taccounts posts2
        (Except.ok tid) now2).resp.status = 200 := by
      rw [twitterPostTweet_text_valid u2 (some pid2) s taccounts posts2
        (Except.ok tid) now2 hs hlen, hsel2]
    refine ⟨?_, hst⟩
    rw [hred]
    have hm : (if post2.id = pid2 then
        ({ post2 with status := "published", facebook_post_id := some tid,
                      published_at := some now2 }) else post2) ∈
        posts2.map (fun p => if p.id = pid2 then
          ({ p with status := "published", facebook_post_id := some tid,
                    published_at := some now2 }) else p) :=
      List.mem_map_of_mem _ hmem2
    rw [if_pos hid2] at hm
    exact hm

/-- C9 witness: user 1 (Instagram) and user 4 (Twitter) publish with a
`postId` owned by users 2 and 5 respectively; the foreign rows end up
published. -/
theorem c9_cross_owner_scheduled_post_update_witness :
    instagramSelected 1 [⟨1, "ig", "alice", 5, true, "tok", 0⟩] =
      some ⟨1, "ig", "alice", 5, true, "tok", 0⟩ ∧
    (⟨3, 2, none, "other", 0, "pending", none, none, none, 0⟩ :
      ScheduledPost) ∈ [(⟨3, 2, none, "other", 0, "pending", none, none, none, 0⟩ : ScheduledPost)] ∧
    twitterSelected 4 [⟨4, "tw", "bob", 5, true, "tok", 0⟩] =
      some ⟨4, "tw", "bob", 5, true, "tok", 0⟩ ∧
    (({ (⟨3, 2, none, "other", 0, "pending", none, none, none, 0⟩ : ScheduledPost) with
          status := "published", facebook_post_id := some "m9", published_at := some 7 } ∈
        (instagramPublish 1 (some 3) (some "http://x")
          [⟨1, "ig", "alice", 5, true, "tok", 0⟩]
          [⟨3, 2, none, "other", 0, "pending", none, none, none, 0⟩]
          (Except.ok "c1") (Except.ok "m9") 7).posts ∧
        (instagramPublish 1 (some 3) (some "http://x")
          [⟨1, "ig", "alice", 5, true, "tok", 0⟩]
          [⟨3, 2, none, "other", 0, "pending", none, none, none, 0⟩]
          (Except.ok "c1") (Except.ok "m9") 7).resp.status = 200) ∧
      ({ (⟨6, 5, none, "other2", 0, "pending", none, none, none, 0⟩ : ScheduledPost) with
          status := "published", facebook_post_id := some "t9", published_at := some 8 } ∈
        (twitterPostTweet 4 (some 6) (some "hi")
          [⟨4, "tw", "bob", 5, true, "tok", 0⟩]
          [⟨6, 5, none, "other2", 0, "pending", none, none, none, 0⟩]
          (Except.ok "t9") 8).posts ∧
        (twitterPostTweet 4 (some 6) (some "hi")
          [⟨4, "tw", "bob", 5, true, "tok", 0⟩]
          [⟨6, 5, none, "other2", 0, "pending", none, none, none, 0⟩]
          (Except.ok "t9") 8).resp.status = 200)) :=
  ⟨by decide, by decide, by decide,
    c9_cross_owner_scheduled_post_update 1 3 "http://x"
      [⟨1, "ig", "alice", 5, true, "tok", 0⟩]
      [⟨3, 2, none, "other", 0, "pending", none, none, none, 0⟩] "c1" "m9" 7
      ⟨3, 2, none, "other", 0, "pending", none, none, none, 0⟩
      ⟨1, "ig", "alice", 5, true, "tok", 0⟩ (by decide) (by decide)
      (by decide) (by decide) (by decide) (by decide)
      4 6 "hi" [⟨4, "tw", "bob", 5, true, "tok", 0⟩]
      [⟨6, 5, none, "other2", 0, "pending", none, none, none, 0⟩] "t9" 8
      ⟨6, 5, none, "other2", 0, "pending", none, none, none, 0⟩
      ⟨4, "tw", "bob", 5, true, "tok", 0⟩ (by decide) (by decide)
      (by decide) (by decide) (by decide) (by decide) (by decide)⟩

/-- C10 counterexample: the empty string is a text of at most 280
characters, yet `POST /tweet` rejects it with 400 ("Tweet text
required", the JavaScript falsiness check), so "texts of 280 characters
or fewer pass this check" is false. -/
theorem c10_counterexample :
    ("" : String).length ≤ 280 ∧
    (twitterPostTweet 1 none (some "") [] [] (Except.ok "t") 0).resp.status
        = 400 ∧
    (twitterPostTweet 1 none (some "") [] [] (Except.ok "t") 0).validationPassed
        = false := by
  decide

/-- C10 amended: an absent **or empty** text fails 400 ("Tweet text
required"), a text longer than 280 characters fails 400 ("Tweet must be
280 characters or less"), each before any provider call or database
write; **non-empty** texts of at most 280 characters pass both checks. -/
theorem c10_amended_tweet_length_validation (u : Nat) (postId : Option Nat)
    (accounts : List TwAccountRow) (posts : List ScheduledPost)
    (provider : Except String String) (now : Nat) (s : String)
    (hs : s ≠ "") :
    twitterPostTweet u postId none accounts posts provider now =
      ⟨⟨400, "Tweet text required"⟩, posts, false, false⟩ ∧
    twitterPostTweet u postId (some "") accounts posts provider now =
      ⟨⟨400, "Tweet text required"⟩, posts, false, false⟩ ∧
    (s.length > 280 →
      twitterPostTweet u postId (some s) accounts posts provider now =
        ⟨⟨400, "Tweet must be 280 characters or less"⟩, posts, false, false⟩) ∧
    (s.length ≤ 280 →
      (twitterPostTweet u postId (some s) accounts posts
        provider now).validationPassed = true) := by
  refine ⟨twitterPostTweet_text_absent u postId accounts posts provider now,
    twitterPostTweet_text_blank u postId "" accounts posts provider now rfl,
    fun hlen =>
      twitterPostTweet_text_long u postId s accounts posts provider now hs hlen,
    fun hle => ?_⟩
  rw [twitterPostTweet_text_valid u postId s accounts posts provider now hs
    (by omega)]
  cases hsel : twitterSelected u accounts with
  | none => rfl
  | some a =>
    cases provider with
    | error e => rfl
    | ok tid => rfl

set_option maxRecDepth 4000 in
/-- C10 amended witness: a 281-character text is rejected with the
length error, a two-character text passes validation, and absent text is
rejected before any state change. -/
theorem c10_amended_tweet_length_validation_witness :
    twitterPostTweet 1 none none [] [] (Except.ok "t") 0 =
      ⟨⟨400, "Tweet text required"⟩, [], false, false⟩ ∧
    twitterPostTweet 1 none (some (String.mk (List.replicate 281 'a'))) [] []
        (Except.ok "t") 0 =
      ⟨⟨400, "Tweet must be 280 characters or less"⟩, [], false, false⟩ ∧
    (twitterPostTweet 1 none (some "hi") [] []
        (Except.ok "t") 0).validationPassed = true :=
  ⟨(c10_amended_tweet_length_validation 1 none [] [] (Except.ok "t") 0 "hi"
      (by decide)).1,
    (c10_amended_tweet_length_validation 1 none [] [] (Except.ok "t") 0
      (String.mk (List.replicate 281 'a')) (by decide)).2.2.1 (by decide),
    (c10_amended_tweet_length_validation 1 none [] [] (Except.ok "t") 0 "hi"
      (by decide)).2.2.2 (by decide)⟩

theorem facebookSelectPage_success (uid : Nat) (pid : String)
    (t : List PageRow) (hp : pid ≠ "")
    (hex : ∃ r ∈ t, pageKey uid pid r = true) :
    (facebookSelectPage uid (some pid) t).resp.status = 200 ∧
    (facebookSelectPage uid (some pid) t).table =
      t.map (fun r => selectIfKey uid pid (deselectIfOwner uid r)) := by
  have hinv : ∀ r, pageKey uid pid (deselectIfOwner uid r) = pageKey uid pid r :=
    fun r => pageKey_deselectIfOwner uid uid pid r
  have hfm : (facebookDeselectAll uid t).filter (pageKey uid pid) =
      (t.filter (pageKey uid pid)).map (deselectIfOwner uid) :=
    filter_map_of_inv _ _ hinv t
  have hne : t.filter (pageKey uid pid) ≠ [] := by
    obtain ⟨r, hr, hk⟩ := hex
    intro hnil
    rw [List.filter_eq_nil_iff] at hnil
    exact hnil r hr hk
  simp only [facebookSelectPage]
  rw [if_neg hp, hfm]
  cases hfil : t.filter (pageKey uid pid) with
  | nil => exact absurd hfil hne
  | cons r0 rest =>
    constructor
    · rfl
    · show (facebookDeselectAll uid t).map (selectIfKey uid pid) =
        t.map (fun r => selectIfKey uid pid (deselectIfOwner uid r))
      unfold facebookDeselectAll
      rw [List.map_map]
      rfl

/-- C3: under sequential calls, a successful `select(owner, R)` makes
`getSelected(owner)` return the row with page id `R`, and a subsequent
successful `select(owner, R')` leaves exactly one selected row for that
owner — never zero, never two (the table is assumed to respect the
`UNIQUE (user_id, page_id)` constraint). -/
theorem c3_select_then_get_and_unique (u : Nat) (R Rp : String)
    (t : List PageRow) (hpw : t.Pairwise keyDistinct)
    (hR : R ≠ "") (hRp : Rp ≠ "")
    (hex1 : ∃ r ∈ t, pageKey u R r = true)
    (hex2 : ∃ r ∈ t, pageKey u Rp r = true) :
    (facebookSelectPage u (some R) t).resp.status = 200 ∧
    Option.map PageRow.page_id
      (facebookGetSelected u (facebookSelectPage u (some R) t).table) =
      some R ∧
    (facebookSelectPage u (some Rp)
      (facebookSelectPage u (some R) t).table).resp.status = 200 ∧
    ((facebookSelectPage u (some Rp)
        (facebookSelectPage u (some R) t).table).table.filter
      (ownerSel u)).length = 1 := by
  obtain ⟨hst1, hT1⟩ := facebookSelectPage_success u R t hR hex1
  have hex2T : ∃ r ∈ (facebookSelectPage u (some R) t).table,
      pageKey u Rp r = true := by
    obtain ⟨r, hr, hk⟩ := hex2
    refine ⟨selectIfKey u R (deselectIfOwner u r), ?_, ?_⟩
    · rw [hT1]
      exact List.mem_map_of_mem _ hr
    · rw [pageKey_selectIfKey, pageKey_deselectIfOwner]
      exact hk
  obtain ⟨hst2, hT2⟩ :=
    facebookSelectPage_success u Rp (facebookSelectPage u (some R) t).table
      hRp hex2T
  refine ⟨hst1, ?_, hst2, ?_⟩
  · rw [hT1]
    unfold facebookGetSelected
    rw [List.filter_map]
    have hcomp : (ownerSel u ∘ fun r => selectIfKey u R (deselectIfOwner u r)) =
        pageKey u R := by
      funext r
      exact ownerSel_select_deselect u R r
    rw [hcomp, List.head?_map]
    obtain ⟨r, hr, hk⟩ := hex1
    cases hfil : t.filter (pageKey u R) with
    | nil =>
      rw [List.filter_eq_nil_iff] at hfil
      exact absurd hk (hfil r hr)
    | cons r0 rest =>
      have hmem0 : r0 ∈ t.filter (pageKey u R) := by
        rw [hfil]
        exact List.mem_cons_self r0 rest
      have hr0 : pageKey u R r0 = true := (List.mem_filter.mp hmem0).2
      have hpid : r0.page_id = R := ((pageKey_iff u R r0).mp hr0).2
      simp [page_id_select_deselect, hpid]
  · rw [hT2, hT1, List.map_map, List.filter_map]
    have hcomp2 : (ownerSel u ∘
        ((fun r => selectIfKey u Rp (deselectIfOwner u r)) ∘
          fun r => selectIfKey u R (deselectIfOwner u r))) = pageKey u Rp := by
      funext r
      show ownerSel u (selectIfKey u Rp (deselectIfOwner u
        (selectIfKey u R (deselectIfOwner u r)))) = pageKey u Rp r
      rw [ownerSel_select_deselect, pageKey_selectIfKey, pageKey_deselectIfOwner]
    rw [hcomp2, List.length_map]
    exact filter_pageKey_length_one u Rp t hpw hex2

/-- C3 witness: owner 1 selects page "A" (getSelected then returns "A"),
then selects page "B"; exactly one of owner 1's rows is selected. -/
theorem c3_select_then_get_and_unique_witness :
    ([⟨1, "A", "N", "t1", none, 0, false, 0⟩,
      ⟨1, "B", "M", "t2", none, 0, false, 0⟩] : List PageRow).Pairwise
        keyDistinct ∧
    ((facebookSelectPage 1 (some "A")
        [⟨1, "A", "N", "t1", none, 0, false, 0⟩,
         ⟨1, "B", "M", "t2", none, 0, false, 0⟩]).resp.status = 200 ∧
      Option.map PageRow.page_id
        (facebookGetSelected 1 (facebookSelectPage 1 (some "A")
          [⟨1, "A", "N", "t1", none, 0, false, 0⟩,
           ⟨1, "B", "M", "t2", none, 0, false, 0⟩]).table) = some "A" ∧
      (facebookSelectPage 1 (some "B") (facebookSelectPage 1 (some "A")
        [⟨1, "A", "N", "t1", none, 0, false, 0⟩,
         ⟨1, "B", "M", "t2", none, 0, false, 0⟩]).table).resp.status = 200 ∧
      ((facebookSelectPage 1 (some "B") (facebookSelectPage 1 (some "A")
          [⟨1, "A", "N", "t1", none, 0, false, 0⟩,
           ⟨1, "B", "M", "t2", none, 0, false, 0⟩]).table).table.filter
        (ownerSel 1)).length = 1) :=
  ⟨by decide,
    c3_select_then_get_and_unique 1 "A" "B"
      [⟨1, "A", "N", "t1", none, 0, false, 0⟩,
       ⟨1, "B", "M", "t2", none, 0, false, 0⟩]
      (by decide) (by decide) (by decide) (by decide) (by decide)⟩

theorem findFacebookPage_upsert (now uid u' : Nat) (pid : String)
    (t : List PageRow) (p : FBPage) :
    findFacebookPage u' pid (upsertFacebookPage now uid t p) =
      if u' = uid ∧ pid = p.id then
        some (applyUpsert now uid p (findFacebookPage u' pid t))
      else findFacebookPage u' pid t := by
  by_cases hk : u' = uid ∧ pid = p.id
  · obtain ⟨h1, h2⟩ := hk
    subst h1
    subst h2
    rw [if_pos ⟨rfl, rfl⟩]
    unfold upsertFacebookPage findFacebookPage
    by_cases hany : t.any (pageKey u' p.id)
    · rw [if_pos hany, List.find?_map]
      have hpred : (pageKey u' p.id ∘ fun r =>
          if pageKey u' p.id r then pageUpdate p r else r) = pageKey u' p.id := by
        funext r
        by_cases hkr : pageKey u' p.id r <;>
          simp [Function.comp, hkr, pageKey_pageUpdate]
      rw [hpred]
      rw [List.any_eq_true] at hany
      obtain ⟨r, hr, hkr⟩ := hany
      have hs : (t.find? (pageKey u' p.id)).isSome :=
        List.find?_isSome.mpr ⟨r, hr, hkr⟩
      obtain ⟨r0, hr0⟩ := Option.isSome_iff_exists.mp hs
      rw [hr0]
      have hk0 : pageKey u' p.id r0 = true := List.find?_some hr0
      simp [hk0, applyUpsert]
    · rw [if_neg hany, List.find?_append]
      have hfn : t.find? (pageKey u' p.id) = none := by
        rw [List.find?_eq_none]
        intro x hx hpx
        exact hany (List.any_eq_true.mpr ⟨x, hx, hpx⟩)
      rw [hfn]
      have hsingle : pageKey u' p.id (pageInsert now u' p) = true := by
        simp [pageKey, pageInsert]
      rw [List.find?_cons_of_pos _ hsingle]
      rfl
  · rw [if_neg hk]
    unfold upsertFacebookPage findFacebookPage
    by_cases hany : t.any (pageKey uid p.id)
    · rw [if_pos hany, List.find?_map]
      have hpred : (pageKey u' pid ∘ fun r =>
          if pageKey uid p.id r then pageUpdate p r else r) = pageKey u' pid := by
        funext r
        by_cases hkr : pageKey uid p.id r <;>
          simp [Function.comp, hkr, pageKey_pageUpdate]
      rw [hpred]
      cases hf : t.find? (pageKey u' pid) with
      | none => rfl
      | some r0 =>
        have hq : pageKey u' pid r0 = true := List.find?_some hf
        have hnk : pageKey uid p.id r0 = false := by
          cases hb : pageKey uid p.id r0 with
          | false => rfl
          | true =>
            obtain ⟨ha, hb2⟩ := (pageKey_iff uid p.id r0).mp hb
            obtain ⟨hc1, hc2⟩ := (pageKey_iff u' pid r0).mp hq
            exact absurd ⟨hc1.symm.trans ha, hc2.symm.trans hb2⟩ hk
        simp [hnk]
    · rw [if_neg hany, List.find?_append]
      have hmiss : pageKey u' pid (pageInsert now uid p) = false := by
        cases hb : pageKey u' pid (pageInsert now uid p) with
        | false => rfl
        | true =>
          obtain ⟨ha, hb2⟩ := (pageKey_iff u' pid _).mp hb
          exact absurd ⟨ha.symm, hb2.symm⟩ hk
      rw [List.find?_cons_of_neg _ (by simp [hmiss])]
      simp

theorem applyUpsert_idem (now uid : Nat) (p : FBPage) (x : Option PageRow) :
    applyUpsert now uid p (some (applyUpsert now uid p x)) =
      applyUpsert now uid p x := by
  cases x with
  | none => rfl
  | some r => rfl

theorem findFacebookPage_sync (now uid u' : Nat) (pid : String)
    (t : List PageRow) (l : List FBPage)
    (hkd : ∀ p ∈ l, ∀ q ∈ l, p.id = q.id → p = q) :
    findFacebookPage u' pid (syncFacebookPages now uid t l) =
      match l.find? (fun p => decide (u' = uid ∧ pid = p.id)) with
      | some p => some (applyUpsert now uid p (findFacebookPage u' pid t))
      | none => findFacebookPage u' pid t := by
  induction l generalizing t with
  | nil => rfl
  | cons p l ih =>
    have hkd' : ∀ a ∈ l, ∀ b ∈ l, a.id = b.id → a = b := fun a ha b hb =>
      hkd a (List.mem_cons_of_mem p ha) b (List.mem_cons_of_mem p hb)
    rw [show syncFacebookPages now uid t (p :: l) =
        syncFacebookPages now uid (upsertFacebookPage now uid t p) l from rfl]
    rw [ih (upsertFacebookPage now uid t p) hkd']
    rw [findFacebookPage_upsert]
    by_cases hc : u' = uid ∧ pid = p.id
    · rw [if_pos hc]
      have hcp : decide (u' = uid ∧ pid = p.id) = true := by
        simp [hc.1, hc.2]
      simp only [List.find?_cons, hcp]
      cases hf : l.find? (fun q => decide (u' = uid ∧ pid = q.id)) with
      | none => rfl
      | some q =>
        have hql := List.mem_of_find?_eq_some hf
        have hqc := List.find?_some hf
        have hq : q = p := by
          have hid : pid = q.id := (of_decide_eq_true hqc).2
          exact hkd q (List.mem_cons_of_mem p hql) p (List.mem_cons_self p l)
            (hid.symm.trans hc.2)
        subst hq
        show some (applyUpsert now uid q
            (some (applyUpsert now uid q (findFacebookPage u' pid t)))) =
          some (applyUpsert now uid q (findFacebookPage u' pid t))
        rw [applyUpsert_idem]
    · rw [if_neg hc]
      have hcp : decide (u' = uid ∧ pid = p.id) = false := by
        simp only [decide_eq_false_iff_not]
        exact hc
      simp only [List.find?_cons, hcp]

/-- C5: the pages sync loop applied to any list of fetched records that
covers a key-distinct set of pages (any permutation, with any
duplications) leaves the mirror with the same content — per key, the
stored row equals the one from applying each page once, in any order
(upserts are idempotent and commute on disjoint keys). -/
theorem c5_sync_permutation_duplication_invariant
    (now uid : Nat) (t : List PageRow) (l1 l2 : List FBPage)
    (hkd : ∀ p ∈ l1, ∀ q ∈ l1, p.id = q.id → p = q)
    (hmem12 : ∀ p ∈ l1, p ∈ l2) (hmem21 : ∀ p ∈ l2, p ∈ l1) :
    ∀ u' pid, findFacebookPage u' pid (syncFacebookPages now uid t l1) =
      findFacebookPage u' pid (syncFacebookPages now uid t l2) := by
  intro u' pid
  have hkd2 : ∀ p ∈ l2, ∀ q ∈ l2, p.id = q.id → p = q := fun p hp q hq =>
    hkd p (hmem21 p hp) q (hmem21 q hq)
  rw [findFacebookPage_sync now uid u' pid t l1 hkd,
      findFacebookPage_sync now uid u' pid t l2 hkd2]
  cases h1 : l1.find? (fun p => decide (u' = uid ∧ pid = p.id)) with
  | none =>
    cases h2 : l2.find? (fun p => decide (u' = uid ∧ pid = p.id)) with
    | none => rfl
    | some q =>
      rw [List.find?_eq_none] at h1
      exact absurd (List.find?_some h2)
        (h1 q (hmem21 q (List.mem_of_find?_eq_some h2)))
  | some q =>
    have hq1 := List.mem_of_find?_eq_some h1
    have hqc := List.find?_some h1
    cases h2 : l2.find? (fun p => decide (u' = uid ∧ pid = p.id)) with
    | none =>
      rw [List.find?_eq_none] at h2
      exact absurd hqc (h2 q (hmem12 q hq1))
    | some q2 =>
      have hm2 := List.mem_of_find?_eq_some h2
      have hc2 := List.find?_some h2
      have heq : q2 = q := by
        have e1 : pid = q.id := (of_decide_eq_true hqc).2
        have e2 : pid = q2.id := (of_decide_eq_true hc2).2
        exact hkd q2 (hmem21 q2 hm2) q hq1 (e2.symm.trans e1)
      rw [heq]

/-- C5 witness: syncing `[A, B, A]` and syncing `[B, A]` from the empty
mirror agree on the stored rows for both keys. -/
theorem c5_sync_permutation_duplication_invariant_witness :
    (∀ p ∈ [(⟨"A", "N", "t1", none, some 3⟩ : FBPage),
        ⟨"B", "M", "t2", none, some 4⟩, ⟨"A", "N", "t1", none, some 3⟩],
      ∀ q ∈ [(⟨"A", "N", "t1", none, some 3⟩ : FBPage),
        ⟨"B", "M", "t2", none, some 4⟩, ⟨"A", "N", "t1", none, some 3⟩],
        p.id = q.id → p = q) ∧
    findFacebookPage 1 "A"
        (syncFacebookPages 9 1 []
          [⟨"A", "N", "t1", none, some 3⟩, ⟨"B", "M", "t2", none, some 4⟩,
           ⟨"A", "N", "t1", none, some 3⟩]) =
      findFacebookPage 1 "A"
        (syncFacebookPages 9 1 []
          [⟨"B", "M", "t2", none, some 4⟩, ⟨"A", "N", "t1", none, some 3⟩]) ∧
    findFacebookPage 1 "B"
        (syncFacebookPages 9 1 []
          [⟨"A", "N", "t1", none, some 3⟩, ⟨"B", "M", "t2", none, some 4⟩,
           ⟨"A", "N", "t1", none, some 3⟩]) =
      findFacebookPage 1 "B"
        (syncFacebookPages 9 1 []
          [⟨"B", "M", "t2", none, some 4⟩, ⟨"A", "N", "t1", none, some 3⟩]) :=
  ⟨by decide,
    c5_sync_permutation_duplication_invariant 9 1 []
      [⟨"A", "N", "t1", none, some 3⟩, ⟨"B", "M", "t2", none, some 4⟩,
       ⟨"A", "N", "t1", none, some 3⟩]
      [⟨"B", "M", "t2", none, some 4⟩, ⟨"A", "N", "t1", none, some 3⟩]
      (by decide) (by decide) (by decide) 1 "A",
    c5_sync_permutation_duplication_invariant 9 1 []
      [⟨"A", "N", "t1", none, some 3⟩, ⟨"B", "M", "t2", none, some 4⟩,
       ⟨"A", "N", "t1", none, some 3⟩]
      [⟨"B", "M", "t2", none, some 4⟩, ⟨"A", "N", "t1", none, some 3⟩]
      (by decide) (by decide) (by decide) 1 "B"⟩

end SocialDash
